import Mathlib

/-!
Shallow embedding of `src/inmet_scraper.py` (INMET weather data scraper).

The program downloads yearly ZIP archives, picks out the member whose name
contains a fixed station-identifier substring, parses it as semicolon-delimited
text with a fixed number of leading rows skipped, and writes the parsed table
to a deterministic per-year parquet path, skipping years whose output file
already exists.

Modelling choices:
- Machine effects (HTTP fetch plus archive opening, and a possible exception
  raised while writing) are an explicit environment `Env`; the filesystem is an
  association list from paths to written frames, threaded through explicitly.
- Python exceptions become an inductive `PyExc` whose constructors mirror the
  three `except` clauses of `process_year` (requests.exceptions.RequestException;
  zipfile.BadZipFile / pl.NoDataError; the catch-all `Exception`).
- `pl.read_csv(separator=';', skip_rows=8)` is embedded as a pure function on
  the decoded lines of the member; `df.write_parquet` stores the frame in the
  filesystem map atomically.
- `os.path.join(dir, name)` is modelled as `dir ++ "/" ++ name`.
- Network traffic is counted: each executed `requests.get` adds one call.
-/

/-- Result record of a download and extraction attempt
(`DownloadResult` dataclass, src lines 12-18). -/
structure DownloadResult where
  year : Int
  success : Bool
  file_path : Option String := none
  error_message : Option String := none
deriving Repr, DecidableEq

/-- Python exception classes distinguished by the `except` chain of
`process_year`: `requests.exceptions.RequestException`;
`zipfile.BadZipFile` or `pl.NoDataError`; any other `Exception`. -/
inductive PyExc where
  | requestErr (msg : String)
  | zipErr (msg : String)
  | otherErr (msg : String)
deriving Repr, DecidableEq

/-- A parsed table (the polars dataframe): column names plus rows. -/
structure Frame where
  columns : List String
  rows : List (List String)
deriving Repr, DecidableEq

/-- An in-memory ZIP archive: member names paired with the decoded
(latin1) text lines of each member. -/
structure ZipArchive where
  members : List (String × List String)
deriving Repr, DecidableEq

/-- The filesystem visible to the scraper: written parquet files by path. -/
abbrev FS := List (String × Frame)

/-- Does a file exist at path `p` (os.path.exists)? -/
def fsExists (fs : FS) (p : String) : Bool :=
  fs.any (fun e => e.1 == p)

/-- Content stored at path `p`, if any. -/
def fsLookup (fs : FS) (p : String) : Option Frame :=
  (fs.find? (fun e => e.1 == p)).map Prod.snd

/-- Environment of external effects for one run: the combined behaviour of
`requests.get` + `raise_for_status` + `zipfile.ZipFile` for each year (an
exception or an opened archive), and an optional exception raised by
`df.write_parquet`. -/
structure Env where
  fetchZip : Int → Except PyExc ZipArchive
  writeExc : Option PyExc := none

/-- Scraper state set up by `INMETScraper.__init__` (src lines 24-41). -/
structure Scraper where
  output_dir : String
  start_year : Int
  current_year : Int
  base_url : String := "https://portal.inmet.gov.br/uploads/dadoshistoricos"
  station_identifier : String := "INMET_SE_RJ_A652_RIO DE JANEIRO"
deriving Repr, DecidableEq

/-- Is `pat` a (contiguous) sublist of the second list? This embeds Python's
substring test `pat in s` on the underlying characters. -/
def listContainsSub (pat : List Char) : List Char → Bool
  | [] => pat.isEmpty
  | c :: cs => (pat.isPrefixOf (c :: cs) : Bool) || listContainsSub pat cs

/-- Python's substring containment `needle in hay` on strings. -/
def strContainsSub (hay needle : String) : Bool :=
  listContainsSub needle.data hay.data

/-- The deterministic output path computed at the top of `process_year`
(src line 53): `os.path.join(output_dir, f"RJ_A652_{year}.parquet")`. -/
def output_file (output_dir : String) (year : Int) : String :=
  output_dir ++ "/" ++ "RJ_A652_" ++ toString year ++ ".parquet"

/-- Member names of the archive (`zip_ref.namelist()`). -/
def zipNamelist (z : ZipArchive) : List String :=
  z.members.map Prod.fst

/-- Open a member of the archive by name (`zip_ref.open(name)`), yielding its
decoded lines; a missing member is an unexpected exception. -/
def zipOpenMember (z : ZipArchive) (name : String) : Except PyExc (List String) :=
  match z.members.find? (fun m => m.1 == name) with
  | some m => .ok m.2
  | none => .error (.otherErr ("no item named " ++ name ++ " in the archive"))

/-- Splits a character list on a separator character, accumulating the current
field in reverse. -/
def splitOnCharAux (sep : Char) : List Char → List Char → List String
  | [], acc => [String.mk acc.reverse]
  | c :: cs, acc =>
    if c = sep then String.mk acc.reverse :: splitOnCharAux sep cs []
    else splitOnCharAux sep cs (c :: acc)

/-- Splits a string on a single separator character (the `;` field separator
of the CSV members). -/
def splitOnChar (sep : Char) (s : String) : List String :=
  splitOnCharAux sep s.data []

/-- Embeds `pl.read_csv(f, separator=';', encoding='latin1', skip_rows=k)`:
drop the first `k` lines, take the next line as the header, split everything
on the semicolon; a stream with no line left raises `pl.NoDataError`
(classified with `zipErr`, as the code catches it in the same clause as
`zipfile.BadZipFile`). -/
def read_csv (skipRows : Nat) (lines : List String) : Except PyExc Frame :=
  match lines.drop skipRows with
  | [] => .error (.zipErr "empty CSV")
  | h :: rest =>
    .ok ⟨splitOnChar ';' h, rest.map (fun r => splitOnChar ';' r)⟩

/-- Error message built by each `except` clause of `process_year`
(src lines 86-97). -/
def excMessage (year : Int) : PyExc → String
  | .requestErr m => "Error downloading data for " ++ toString year ++ ": " ++ m
  | .zipErr m => "Error processing ZIP file for " ++ toString year ++ ": " ++ m
  | .otherErr m => "Unexpected error processing " ++ toString year ++ ": " ++ m

/-- Result of one `process_year` call: the returned `DownloadResult`, the
filesystem afterwards, and how many network requests were made. -/
structure PYResult where
  result : DownloadResult
  fs : FS
  netCalls : Nat
deriving Repr, DecidableEq

/-- `INMETScraper.process_year` (src lines 43-97): idempotence check, fetch,
member filter, parse with `skip_rows=8`, write; every exception converted to a
failure `DownloadResult` by the three `except` clauses. The `for` loop over
`rio_files` returns inside its first iteration, so only the first match is
processed. -/
def process_year (s : Scraper) (env : Env) (fs : FS) (year : Int) : PYResult :=
  let out := output_file s.output_dir year
  if fsExists fs out then
    ⟨⟨year, true, some out, none⟩, fs, 0⟩
  else
    match env.fetchZip year with
    | .error e => ⟨⟨year, false, none, some (excMessage year e)⟩, fs, 1⟩
    | .ok zip_ref =>
      match (zipNamelist zip_ref).filter
          (fun n => strContainsSub n s.station_identifier) with
      | [] =>
        ⟨⟨year, false, none,
          some ("No Rio de Janeiro A652 station data found for " ++ toString year)⟩,
         fs, 1⟩
      | station_file :: _ =>
        match zipOpenMember zip_ref station_file with
        | .error e => ⟨⟨year, false, none, some (excMessage year e)⟩, fs, 1⟩
        | .ok fLines =>
          match read_csv 8 fLines with
          | .error e => ⟨⟨year, false, none, some (excMessage year e)⟩, fs, 1⟩
          | .ok df =>
            match env.writeExc with
            | some e => ⟨⟨year, false, none, some (excMessage year e)⟩, fs, 1⟩
            | none => ⟨⟨year, true, some out, none⟩, (out, df) :: fs, 1⟩

/-- Result of `process_all_years`: the outcome list, the final filesystem, and
the total network request count. -/
structure BatchResult where
  results : List DownloadResult
  fs : FS
  netCalls : Nat
deriving Repr, DecidableEq

/-- Python's `range(start, stop + 1)` over integers, as an ascending list. -/
def yearRange (start stop : Int) : List Int :=
  (List.range (stop + 1 - start).toNat).map (fun i => start + Int.ofNat i)

/-- The sequential loop body of `process_all_years`, threading the filesystem
through the years in order. -/
def runYears (s : Scraper) (env : Env) : List Int → FS → BatchResult
  | [], fs => ⟨[], fs, 0⟩
  | y :: ys, fs =>
    let r := process_year s env fs y
    let rest := runYears s env ys r.fs
    ⟨r.result :: rest.results, rest.fs, r.netCalls + rest.netCalls⟩

/-- `INMETScraper.process_all_years` (src lines 99-110): one `process_year`
per year from `start_year` through `current_year`, ascending, accumulating
every result. -/
def process_all_years (s : Scraper) (env : Env) (fs : FS) : BatchResult :=
  runYears s env (yearRange s.start_year s.current_year) fs

/-- Python truthiness of an optional string: `None` and `""` are falsy. -/
def truthy : Option String → Bool
  | none => false
  | some s => !s.isEmpty

/-- `INMETScraper.get_successful_downloads` (src lines 112-114): file paths of
results with `success` truthy and a truthy `file_path`. -/
def get_successful_downloads (results : List DownloadResult) : List String :=
  results.filterMap (fun r =>
    match r.file_path with
    | some p => if r.success && !p.isEmpty then some p else none
    | none => none)

/-- `INMETScraper.get_failed_downloads` (src lines 116-119): `(year, message)`
pairs of results with `success` falsy and a truthy `error_message`. -/
def get_failed_downloads (results : List DownloadResult) : List (Int × String) :=
  results.filterMap (fun r =>
    match r.error_message with
    | some m => if !r.success && !m.isEmpty then some (r.year, m) else none
    | none => none)

/-- The shape every `DownloadResult` built by `process_year` has: a success
carries a non-empty path and no message, a failure a non-empty message and no
path. -/
def wellFormedB (r : DownloadResult) : Bool :=
  if r.success then truthy r.file_path && r.error_message.isNone
  else truthy r.error_message && r.file_path.isNone

/- Concrete fixtures used by witnesses and counterexamples. -/

/-- Twelve decoded lines: eight metadata lines, then a header line and three
data rows, all semicolon-separated. -/
def testLines : List String :=
  ["meta1", "meta2", "meta3", "meta4", "meta5", "meta6", "meta7", "meta8",
   "A;B", "1;2", "x;y", "3;4"]

/-- An archive holding one member whose name contains the station identifier. -/
def goodZip : ZipArchive :=
  ⟨[("2020/INMET_SE_RJ_A652_RIO DE JANEIRO_01-01-2020_A_31-12-2020.CSV",
     testLines)]⟩

/-- Environment in which every download succeeds and yields `goodZip`. -/
def goodEnv : Env := ⟨fun _ => .ok goodZip, none⟩

/-- Environment whose archives contain no member matching the station. -/
def noMatchEnv : Env :=
  ⟨fun _ => .ok ⟨[("2021/INMET_S_RS_A801_PORTO ALEGRE.CSV", testLines)]⟩, none⟩

/-- Environment in which every download fails with an HTTP 404. -/
def errEnv : Env :=
  ⟨fun _ => .error (.requestErr "404 Client Error: Not Found for url"), none⟩

/-- A scraper configured like `main()` but over 2019-2021 with `out` as the
output directory. -/
def testScraper : Scraper :=
  { output_dir := "out", start_year := 2019, current_year := 2021 }

/-! Helper lemmas shared by the claim theorems. -/

theorem process_year_year (s : Scraper) (env : Env) (fs : FS) (y : Int) :
    (process_year s env fs y).result.year = y := by
  unfold process_year
  simp only
  split
  · rfl
  · split
    · rfl
    · split
      · rfl
      · split
        · rfl
        · split
          · rfl
          · split <;> rfl

theorem isEmpty_false_of_length_pos (s : String) (h : 0 < s.length) : s.isEmpty = false := by
  cases hb : s.isEmpty
  · rfl
  · rw [String.isEmpty_iff] at hb
    subst hb
    simp at h

theorem output_file_isEmpty (d : String) (y : Int) : (output_file d y).isEmpty = false := by
  apply isEmpty_false_of_length_pos
  simp only [output_file, String.length_append]
  have h1 : 0 < "/".length := by decide
  omega

theorem excMessage_isEmpty (y : Int) (e : PyExc) : (excMessage y e).isEmpty = false := by
  apply isEmpty_false_of_length_pos
  have h1 : 0 < ": ".length := by decide
  cases e <;> simp only [excMessage, String.length_append] <;> omega

theorem noData_isEmpty (y : Int) :
    ("No Rio de Janeiro A652 station data found for " ++ toString y).isEmpty = false := by
  apply isEmpty_false_of_length_pos
  have h1 : 0 < "No Rio de Janeiro A652 station data found for ".length := by decide
  simp only [String.length_append]
  omega

theorem fsExists_cons_self (p : String) (df : Frame) (fs : FS) :
    fsExists ((p, df) :: fs) p = true := by
  simp [fsExists]

theorem process_year_skip (s : Scraper) (env : Env) (fs : FS) (y : Int)
    (h : fsExists fs (output_file s.output_dir y) = true) :
    process_year s env fs y =
      ⟨⟨y, true, some (output_file s.output_dir y), none⟩, fs, 0⟩ := by
  unfold process_year
  simp only
  rw [if_pos h]

theorem process_year_cases (s : Scraper) (env : Env) (fs : FS) (y : Int) :
    (∃ df, process_year s env fs y =
      ⟨⟨y, true, some (output_file s.output_dir y), none⟩,
       (output_file s.output_dir y, df) :: fs, 1⟩) ∨
    (process_year s env fs y =
      ⟨⟨y, true, some (output_file s.output_dir y), none⟩, fs, 0⟩ ∧
     fsExists fs (output_file s.output_dir y) = true) ∨
    (∃ m, process_year s env fs y = ⟨⟨y, false, none, some m⟩, fs, 1⟩ ∧
      m.isEmpty = false) := by
  unfold process_year
  simp only
  split
  · rename_i h
    exact Or.inr (Or.inl ⟨rfl, h⟩)
  · split
    · exact Or.inr (Or.inr ⟨_, rfl, excMessage_isEmpty _ _⟩)
    · split
      · exact Or.inr (Or.inr ⟨_, rfl, noData_isEmpty _⟩)
      · split
        · exact Or.inr (Or.inr ⟨_, rfl, excMessage_isEmpty _ _⟩)
        · split
          · exact Or.inr (Or.inr ⟨_, rfl, excMessage_isEmpty _ _⟩)
          · split
            · exact Or.inr (Or.inr ⟨_, rfl, excMessage_isEmpty _ _⟩)
            · exact Or.inl ⟨_, rfl⟩

instance {ε α : Type} [DecidableEq ε] [DecidableEq α] : DecidableEq (Except ε α) := fun x y =>
  match x, y with
  | .ok a, .ok b =>
    if h : a = b then isTrue (by rw [h])
    else isFalse (fun he => h (by injection he))
  | .error a, .error b =>
    if h : a = b then isTrue (by rw [h])
    else isFalse (fun he => h (by injection he))
  | .ok _, .error _ => isFalse (fun he => Except.noConfusion he)
  | .error _, .ok _ => isFalse (fun he => Except.noConfusion he)

theorem runYears_map_year (s : Scraper) (env : Env) (ys : List Int) (fs : FS) :
    (runYears s env ys fs).results.map DownloadResult.year = ys := by
  induction ys generalizing fs with
  | nil => rfl
  | cons y ys ih => simp [runYears, process_year_year, ih]

theorem yearRange_length (a b : Int) : (yearRange a b).length = (b + 1 - a).toNat := by
  unfold yearRange
  exact (List.length_map _ _).trans (List.length_range _)

theorem yearRange_empty (a b : Int) (h : b < a) : yearRange a b = [] := by
  have h0 : (b + 1 - a).toNat = 0 := Int.toNat_eq_zero.mpr (by omega)
  simp [yearRange, h0]

theorem process_year_wf (s : Scraper) (env : Env) (fs : FS) (y : Int) :
    wellFormedB (process_year s env fs y).result = true := by
  rcases process_year_cases s env fs y with ⟨df, hEq⟩ | ⟨hEq, _⟩ | ⟨m, hEq, hm⟩ <;>
    rw [hEq] <;>
    simp [wellFormedB, truthy, output_file_isEmpty, *]

theorem runYears_wf (s : Scraper) (env : Env) (ys : List Int) (fs : FS) :
    ∀ r ∈ (runYears s env ys fs).results, wellFormedB r = true := by
  induction ys generalizing fs with
  | nil => intro r hr; simp [runYears] at hr
  | cons y ys ih =>
    intro r hr
    simp only [runYears, List.mem_cons] at hr
    rcases hr with h | h
    · rw [h]; exact process_year_wf s env fs y
    · exact ih _ r h

theorem selectors_cons (r : DownloadResult) (rs : List DownloadResult)
    (hr : wellFormedB r = true) :
    (r.success = true ∧
      (∃ p, r.file_path = some p ∧
        get_successful_downloads (r :: rs) = p :: get_successful_downloads rs) ∧
      get_failed_downloads (r :: rs) = get_failed_downloads rs) ∨
    (r.success = false ∧
      get_successful_downloads (r :: rs) = get_successful_downloads rs ∧
      ∃ m, r.error_message = some m ∧
        get_failed_downloads (r :: rs) = (r.year, m) :: get_failed_downloads rs) := by
  obtain ⟨y, suc, fp, em⟩ := r
  cases suc <;> rcases fp with _ | p <;> rcases em with _ | m <;>
    simp_all [wellFormedB, truthy, get_successful_downloads, get_failed_downloads,
      List.filterMap_cons]

theorem wf_partition_lengths (rs : List DownloadResult)
    (h : ∀ r ∈ rs, wellFormedB r = true) :
    (get_successful_downloads rs).length + (get_failed_downloads rs).length = rs.length := by
  induction rs with
  | nil => rfl
  | cons r rs ih =>
    have ih' := ih (fun x hx => h x (List.mem_cons_of_mem r hx))
    rcases selectors_cons r rs (h r (List.mem_cons_self r rs)) with
      ⟨_, ⟨p, _, hg⟩, hf⟩ | ⟨_, hg, m, _, hf⟩ <;>
      rw [hg, hf] <;> simp <;> omega

theorem wf_failed_map (rs : List DownloadResult)
    (h : ∀ r ∈ rs, wellFormedB r = true) :
    (get_failed_downloads rs).map Prod.fst =
      (rs.filter (fun r => !r.success)).map DownloadResult.year := by
  induction rs with
  | nil => rfl
  | cons r rs ih =>
    have ih' := ih (fun x hx => h x (List.mem_cons_of_mem r hx))
    rcases selectors_cons r rs (h r (List.mem_cons_self r rs)) with
      ⟨hs, ⟨p, _, hg⟩, hf⟩ | ⟨hs, hg, m, _, hf⟩ <;>
      rw [hf] <;> simp [List.filter_cons, hs, ih']

theorem wf_partition_perm (rs : List DownloadResult)
    (h : ∀ r ∈ rs, wellFormedB r = true) :
    List.Perm
      ((rs.filter (fun r => r.success)).map DownloadResult.year ++
        (get_failed_downloads rs).map Prod.fst)
      (rs.map DownloadResult.year) := by
  rw [wf_failed_map rs h, ← List.map_append]
  exact (List.filter_append_perm _ rs).map DownloadResult.year

/-! Claim theorems. -/

/-- Modelled from the spec sentence of the claim for comparison: parsing the
member stream "with 10 header lines skipped", everything else as in the code's
`read_csv` call. -/
def read_csv_spec10 (lines : List String) : Except PyExc Frame :=
  read_csv 10 lines

/-- A filesystem that already holds the 2019 artifact. -/
def fs2019 : FS := [(output_file "out" 2019, ⟨["A"], []⟩)]

/-- The frame parsed from `testLines` with the code's skip of 8 rows. -/
def testFrame : Frame := ⟨["A", "B"], [["1", "2"], ["x", "y"], ["3", "4"]]⟩

/-- C1 (amended): the deterministic output path computed by `process_year`, used
by the idempotence check and carried by every success `Outcome`, is
`{output_dir}/RJ_A652_{year}.parquet`; in particular for year 2020 under
directory `out` it is `out/RJ_A652_2020.parquet`. -/
theorem c1_output_path (s : Scraper) (env : Env) (fs : FS) (y : Int) :
    ((process_year s env fs y).result.success = true →
      (process_year s env fs y).result.file_path =
        some (s.output_dir ++ "/" ++ "RJ_A652_" ++ toString y ++ ".parquet")) ∧
    output_file "out" 2020 = "out/RJ_A652_2020.parquet" := by
  constructor
  · intro h
    rcases process_year_cases s env fs y with ⟨df, hEq⟩ | ⟨hEq, _⟩ | ⟨m, hEq, _⟩ <;>
      rw [hEq]
    · rfl
    · rfl
    · rw [hEq] at h; simp at h
  · decide

/-- C1 witness: a concrete successful run for year 2020 carries the amended
path. -/
theorem c1_output_path_witness :
    (process_year testScraper goodEnv [] 2020).result.file_path =
      some ("out" ++ "/" ++ "RJ_A652_" ++ toString (2020 : Int) ++ ".parquet") :=
  (c1_output_path testScraper goodEnv [] 2020).1 (by decide)

/-- C1 counterexample: the claim's concrete instance fails — the success
`Outcome` for year 2020 carries `out/RJ_A652_2020.parquet`, not
`out/A652_2020.parquet`. -/
theorem c1_claimed_path_refuted :
    (process_year testScraper goodEnv [] 2020).result.success = true ∧
    (process_year testScraper goodEnv [] 2020).result.file_path ≠
      some "out/A652_2020.parquet" := by
  decide

/-- C2 (amended): when the archive downloads and a member matches, `process_year`
parses the FIRST matched member's stream as semicolon-delimited text skipping
exactly 8 leading rows, writes the parsed table to the deterministic output
path, and returns success with that path. -/
theorem c2_parse_and_write (s : Scraper) (env : Env) (fs : FS) (y : Int)
    (zip : ZipArchive) (name : String) (others : List String)
    (fLines : List String) (df : Frame)
    (hex : fsExists fs (output_file s.output_dir y) = false)
    (hfetch : env.fetchZip y = .ok zip)
    (hmatch : (zipNamelist zip).filter
      (fun n => strContainsSub n s.station_identifier) = name :: others)
    (hopen : zipOpenMember zip name = .ok fLines)
    (hparse : read_csv 8 fLines = .ok df)
    (hwrite : env.writeExc = none) :
    process_year s env fs y =
      ⟨⟨y, true, some (output_file s.output_dir y), none⟩,
       (output_file s.output_dir y, df) :: fs, 1⟩ := by
  unfold process_year
  simp only
  rw [hex]
  simp only [Bool.false_eq_true, if_false, hfetch, hmatch, hopen, hparse, hwrite]

/-- C2 witness: Scenario A concretely — the 2020 archive yields the member,
8 rows are skipped, and the parsed table lands at the deterministic path. -/
theorem c2_parse_and_write_witness :
    process_year testScraper goodEnv [] 2020 =
      ⟨⟨2020, true, some (output_file "out" 2020), none⟩,
       [(output_file "out" 2020, testFrame)], 1⟩ :=
  c2_parse_and_write testScraper goodEnv [] 2020 goodZip
    "2020/INMET_SE_RJ_A652_RIO DE JANEIRO_01-01-2020_A_31-12-2020.CSV" []
    testLines testFrame (by decide) rfl (by decide) (by decide) (by decide) rfl

/-- C2 counterexample: the written table is the 8-row-skip parse, and it differs
from what a 10-header-line skip (the claim's reading) would produce on the same
member. -/
theorem c2_skip10_refuted :
    (process_year testScraper goodEnv [] 2020).result.success = true ∧
    fsLookup (process_year testScraper goodEnv [] 2020).fs (output_file "out" 2020) =
      some testFrame ∧
    read_csv_spec10 testLines ≠ .ok testFrame := by
  decide

/-- C3: every `Outcome` produced by `process_year` has `success = true` exactly
when `file_path` is set and `error_message` unset, and `success = false` exactly
when `error_message` is set and `file_path` unset. -/
theorem c3_mutual_exclusivity (s : Scraper) (env : Env) (fs : FS) (y : Int) :
    ((process_year s env fs y).result.success = true ↔
      (process_year s env fs y).result.file_path.isSome = true ∧
      (process_year s env fs y).result.error_message = none) ∧
    ((process_year s env fs y).result.success = false ↔
      (process_year s env fs y).result.error_message.isSome = true ∧
      (process_year s env fs y).result.file_path = none) := by
  rcases process_year_cases s env fs y with ⟨df, hEq⟩ | ⟨hEq, _⟩ | ⟨m, hEq, _⟩ <;>
    rw [hEq] <;> simp

/-- C4: if the artifact already exists, `process_year` succeeds with that path,
unchanged filesystem and zero network calls; and after any successful call a
second call (under any environment) makes no network access and returns the
same success `Outcome`. -/
theorem c4_idempotence (s : Scraper) (env env2 : Env) (fs : FS) (y : Int) :
    (fsExists fs (output_file s.output_dir y) = true →
      process_year s env fs y =
        ⟨⟨y, true, some (output_file s.output_dir y), none⟩, fs, 0⟩) ∧
    ((process_year s env fs y).result.success = true →
      process_year s env2 (process_year s env fs y).fs y =
        ⟨(process_year s env fs y).result, (process_year s env fs y).fs, 0⟩) := by
  constructor
  · exact process_year_skip s env fs y
  · intro hs
    rcases process_year_cases s env fs y with ⟨df, hEq⟩ | ⟨hEq, hex⟩ | ⟨m, hEq, _⟩
    · rw [hEq]
      exact process_year_skip s env2 _ y (fsExists_cons_self _ _ _)
    · rw [hEq]
      exact process_year_skip s env2 fs y hex
    · rw [hEq] at hs
      simp at hs

/-- C4 witness: Scenario D — artifact present for 2019, a second run under a
failing network still succeeds with zero network calls; and a fresh success for
2020 is repeatable. -/
theorem c4_idempotence_witness :
    process_year testScraper errEnv fs2019 2019 =
      ⟨⟨2019, true, some (output_file "out" 2019), none⟩, fs2019, 0⟩ ∧
    process_year testScraper errEnv (process_year testScraper goodEnv [] 2020).fs 2020 =
      ⟨(process_year testScraper goodEnv [] 2020).result,
       (process_year testScraper goodEnv [] 2020).fs, 0⟩ :=
  ⟨(c4_idempotence testScraper errEnv errEnv fs2019 2019).1 (by decide),
   (c4_idempotence testScraper goodEnv errEnv [] 2020).2 (by decide)⟩

/-- C5: with `start_year ≤ current_year`, `process_all_years` returns one
`Outcome` per year of the range in ascending year order — exactly
`current_year − start_year + 1` of them, every year attempted whatever the
environment does. -/
theorem c5_exhaustiveness (s : Scraper) (env : Env) (fs : FS)
    (h : s.start_year ≤ s.current_year) :
    (process_all_years s env fs).results.map DownloadResult.year =
      yearRange s.start_year s.current_year ∧
    ((process_all_years s env fs).results.length : Int) =
      s.current_year - s.start_year + 1 := by
  constructor
  · exact runYears_map_year s env _ fs
  · have hmap := congrArg List.length (runYears_map_year s env
      (yearRange s.start_year s.current_year) fs)
    rw [List.length_map] at hmap
    rw [process_all_years, hmap, yearRange_length]
    rw [Int.toNat_of_nonneg (by omega)]
    omega

/-- C5 witness: range 2019-2021 under an all-failing network still yields the
three years in order. -/
theorem c5_exhaustiveness_witness :
    (process_all_years testScraper errEnv []).results.map DownloadResult.year =
      yearRange testScraper.start_year testScraper.current_year ∧
    ((process_all_years testScraper errEnv []).results.length : Int) =
      testScraper.current_year - testScraper.start_year + 1 :=
  c5_exhaustiveness testScraper errEnv [] (by decide)

/-- C6: for every environment behaviour, `process_year` returns a structured
`Outcome` for the requested year — success with no message, or failure with a
message and no path — and a transport/archive/unexpected exception during the
pipeline is converted into the failure `Outcome` tagged by `excMessage`. -/
theorem c6_no_exception_escapes (s : Scraper) (env : Env) (fs : FS) (y : Int) :
    ((process_year s env fs y).result.year = y ∧
     (((process_year s env fs y).result.success = true ∧
       (process_year s env fs y).result.error_message = none) ∨
      ((process_year s env fs y).result.success = false ∧
       (process_year s env fs y).result.file_path = none ∧
       ∃ m, (process_year s env fs y).result.error_message = some m))) ∧
    (∀ e, fsExists fs (output_file s.output_dir y) = false →
      env.fetchZip y = .error e →
      process_year s env fs y =
        ⟨⟨y, false, none, some (excMessage y e)⟩, fs, 1⟩) := by
  constructor
  · refine ⟨process_year_year s env fs y, ?_⟩
    rcases process_year_cases s env fs y with ⟨df, hEq⟩ | ⟨hEq, _⟩ | ⟨m, hEq, _⟩ <;>
      rw [hEq] <;> simp
  · intro e hex hfetch
    unfold process_year
    simp only
    rw [hex]
    simp only [Bool.false_eq_true, if_false, hfetch]

/-- C6 witness: Scenario C — an HTTP 404 for 2022 becomes a failure `Outcome`
with the download-stage message. -/
theorem c6_no_exception_escapes_witness :
    process_year testScraper errEnv [] 2022 =
      ⟨⟨2022, false, none,
        some (excMessage 2022 (.requestErr "404 Client Error: Not Found for url"))⟩,
       [], 1⟩ :=
  (c6_no_exception_escapes testScraper errEnv [] 2022).2
    (.requestErr "404 Client Error: Not Found for url") (by decide) rfl

/-- C7: when the download succeeds and the archive holds no member whose name
contains the station identifier, `process_year` returns the failure `Outcome`
with the "no station data found" message for that year. -/
theorem c7_no_station_data (s : Scraper) (env : Env) (fs : FS) (y : Int)
    (zip : ZipArchive)
    (hex : fsExists fs (output_file s.output_dir y) = false)
    (hfetch : env.fetchZip y = .ok zip)
    (hnone : (zipNamelist zip).filter
      (fun n => strContainsSub n s.station_identifier) = []) :
    process_year s env fs y =
      ⟨⟨y, false, none,
        some ("No Rio de Janeiro A652 station data found for " ++ toString y)⟩,
       fs, 1⟩ := by
  unfold process_year
  simp only
  rw [hex]
  simp only [Bool.false_eq_true, if_false, hfetch, hnone]

/-- C7 witness: Scenario B concretely for year 2021. -/
theorem c7_no_station_data_witness :
    process_year testScraper noMatchEnv [] 2021 =
      ⟨⟨2021, false, none,
        some ("No Rio de Janeiro A652 station data found for " ++ toString (2021 : Int))⟩,
       [], 1⟩ :=
  c7_no_station_data testScraper noMatchEnv [] 2021
    ⟨[("2021/INMET_S_RS_A801_PORTO ALEGRE.CSV", testLines)]⟩
    (by decide) rfl (by decide)

/-- C8: a failing `process_year` call leaves the filesystem unchanged; in
particular no artifact appears at the deterministic path, so a later run's
idempotence check re-attempts the year. -/
theorem c8_no_write_on_failure (s : Scraper) (env : Env) (fs : FS) (y : Int)
    (h : (process_year s env fs y).result.success = false) :
    (process_year s env fs y).fs = fs ∧
    (fsExists fs (output_file s.output_dir y) = false →
      fsExists (process_year s env fs y).fs (output_file s.output_dir y) = false) := by
  rcases process_year_cases s env fs y with ⟨df, hEq⟩ | ⟨hEq, _⟩ | ⟨m, hEq, _⟩
  · rw [hEq] at h; simp at h
  · rw [hEq] at h; simp at h
  · rw [hEq]
    exact ⟨rfl, fun hx => hx⟩

/-- C8 witness: the failed 2022 download writes nothing. -/
theorem c8_no_write_on_failure_witness :
    (process_year testScraper errEnv [] 2022).fs = [] ∧
    (fsExists [] (output_file "out" 2022) = false →
      fsExists (process_year testScraper errEnv [] 2022).fs
        (output_file "out" 2022) = false) :=
  c8_no_write_on_failure testScraper errEnv [] 2022 (by decide)

/-- C9: over the outcomes of any full run, `get_successful_downloads` and
`get_failed_downloads` partition the list — their lengths sum to the number of
processed years, the failed projection carries exactly the years of the
failures, and the successes' years together with the failed years are a
permutation of the whole processed range. -/
theorem c9_partition_completeness (s : Scraper) (env : Env) (fs : FS) :
    (get_successful_downloads (process_all_years s env fs).results).length +
      (get_failed_downloads (process_all_years s env fs).results).length =
      (process_all_years s env fs).results.length ∧
    (get_failed_downloads (process_all_years s env fs).results).map Prod.fst =
      ((process_all_years s env fs).results.filter
        (fun r => !r.success)).map DownloadResult.year ∧
    List.Perm
      (((process_all_years s env fs).results.filter
          (fun r => r.success)).map DownloadResult.year ++
        (get_failed_downloads (process_all_years s env fs).results).map Prod.fst)
      (yearRange s.start_year s.current_year) := by
  have hwf := runYears_wf s env (yearRange s.start_year s.current_year) fs
  refine ⟨wf_partition_lengths _ hwf, wf_failed_map _ hwf, ?_⟩
  have hperm := wf_partition_perm _ hwf
  rw [runYears_map_year s env _ fs] at hperm
  exact hperm

/-- C10: when the configured `start_year` exceeds the current calendar year,
`process_all_years` returns the empty list, leaves the filesystem untouched and
makes no network call. -/
theorem c10_empty_range (s : Scraper) (env : Env) (fs : FS)
    (h : s.current_year < s.start_year) :
    process_all_years s env fs = ⟨[], fs, 0⟩ := by
  unfold process_all_years
  rw [yearRange_empty _ _ h]
  rfl

/-- C10 witness: a scraper constructed in 2024 with start year 2025 does
nothing. -/
theorem c10_empty_range_witness :
    process_all_years ⟨"out", 2025, 2024, "", ""⟩ errEnv [] = ⟨[], [], 0⟩ :=
  c10_empty_range ⟨"out", 2025, 2024, "", ""⟩ errEnv [] (by decide)
